import Mathlib

/-!
Verification of the PDF QA Bot repository against its specification.

The Express backend (src/server.js) and the React frontend (src/frontend/src/App.js)
are embedded shallowly below.  The Python retrieval service (rag-service/main.py) is
not part of src/; where a claim depends on it, the corresponding definitions are
modelled from the specification and from the fragments of that file quoted in the
repository documents, and their doc comments say so.
-/

/-- A JavaScript value as it can appear in a field of a JSON request body.
The undefined constructor stands for an absent field. -/
inductive JsValue where
  | undefined
  | null
  | str (s : String)
  | num (n : Int)
  | bool (b : Bool)
deriving DecidableEq

/-- JavaScript truthiness: undefined, null, false, 0 and the empty string are falsy. -/
def JsValue.truthy : JsValue → Bool
  | .undefined => false
  | .null => false
  | .str s => s != ""
  | .num n => n != 0
  | .bool b => b

/-- Whether typeof v is string. -/
def JsValue.isStr : JsValue → Bool
  | .str _ => true
  | _ => false

/-- The shape of an axios error as read by server.js: err.code, err.response?.status,
err.response?.data rendered to a string, err.response?.data?.detail, err.message, and
the axios-retry library predicate isNetworkOrIdempotentRequestError, which is external
to the repository and therefore kept as an abstract boolean field. -/
structure AxiosError where
  code : Option String
  respStatus : Option Nat
  respData : Option String
  respDetail : Option String
  message : String
  netOrIdempotent : Bool
deriving DecidableEq

/-- JavaScript a || b for an optional string a: a when present and non-empty, else b. -/
def jsOrStr (a : Option String) (b : String) : String :=
  match a with
  | some s => if s = "" then b else s
  | none => b

/-- JavaScript a || b for an optional number a: a when present and nonzero, else b. -/
def jsOrNat (a : Option Nat) (b : Nat) : Nat :=
  match a with
  | some n => if n = 0 then b else n
  | none => b

/-- An HTTP response as produced by res.status(...).json(...): the status code and the
key-value pairs of the JSON body, in source order. -/
structure Response where
  status : Nat
  body : List (String × String)
deriving DecidableEq

/-- The keys of a response body. -/
def Response.bodyKeys (r : Response) : List String :=
  r.body.map Prod.fst

/-- The timeout classification shared by the catch blocks of all three routes of
server.js: err.code is ECONNABORTED or err.response?.status is 504. -/
def isTimeoutErr (e : AxiosError) : Bool :=
  e.code == some "ECONNABORTED" || e.respStatus == some 504

/-- MAX_RETRY_ATTEMPTS from server.js: the parsed environment variable when set, else 3. -/
def maxRetryAttempts (env : Option Nat) : Nat :=
  env.getD 3

/-- The axios-retry retryCondition configured in server.js: retry on network or
idempotent-request errors, on ECONNABORTED, and on a response with status 500 or more. -/
def retryCondition (e : AxiosError) : Bool :=
  e.netOrIdempotent || e.code == some "ECONNABORTED" ||
    (match e.respStatus with
     | some st => decide (500 ≤ st)
     | none => false)

/-- The deterministic part of axios-retry exponentialDelay: 100ms doubled per retry. -/
def exponentialDelay (retryCount : Nat) : Nat :=
  100 * 2 ^ retryCount

/-- One axios request under the axios-retry configuration of server.js.  outcome n is
the result of attempt n (0-based).  The triple returned is the number of attempts
performed, the backoff delays waited before each retry in order — axios-retry computes
the delay of retry number n (1-based) as exponentialDelay n — and the final outcome.
A failed attempt is retried only while retry budget remains and retryCondition holds
for its error. -/
def retryFrom (outcome : Nat → Except AxiosError String) :
    Nat → Nat → Nat × List Nat × Except AxiosError String
  | 0, i => (i + 1, [], outcome i)
  | r + 1, i =>
    match outcome i with
    | .ok s => (i + 1, [], .ok s)
    | .error e =>
      if retryCondition e then
        ((retryFrom outcome r (i + 1)).1,
          exponentialDelay (i + 1) :: (retryFrom outcome r (i + 1)).2.1,
          (retryFrom outcome r (i + 1)).2.2)
      else (i + 1, [], .error e)

/-- A request starting at attempt 0 with the configured number of retries. -/
def retryRun (retries : Nat) (outcome : Nat → Except AxiosError String) :
    Nat × List Nat × Except AxiosError String :=
  retryFrom outcome retries 0

/-- The backoff schedule of k consecutive retries, the first of them following
attempt i (0-based): retry number i + 1 waits exponentialDelay (i + 1), the next one
exponentialDelay (i + 2), and so on — each delay double the one before. -/
def backoffSchedule : Nat → Nat → List Nat
  | 0, _ => []
  | k + 1, i => exponentialDelay (i + 1) :: backoffSchedule k (i + 1)

/-- JavaScript String.prototype.trim: remove whitespace from both ends of the string,
written over the character list so that it evaluates by kernel reduction. -/
def jsTrim (s : String) : String :=
  String.mk (((s.data.dropWhile Char.isWhitespace).reverse.dropWhile
    Char.isWhitespace).reverse)

/-- The outcome of the input validation at the top of app.post /ask in server.js. -/
inductive AskValidation where
  | reject (status : Nat) (error : String)
  | proceed (question : String)
deriving DecidableEq

/-- The validation code of app.post /ask in server.js: the question must be present, a
string, non-empty after trimming, and at most 2000 characters long; when it is, the
trimmed question proceeds downstream.  An absent or falsy or non-string question hits
the first check, a whitespace-only question the second, an over-long one the third. -/
def askValidate : JsValue → AskValidation
  | .str s =>
    if s = "" then .reject 400 "Question is required and must be a string"
    else if (jsTrim s) = "" then .reject 400 "Question cannot be empty"
    else if 2000 < s.length then .reject 400 "Question too long (max 2000 characters)"
    else .proceed (jsTrim s)
  | _ => .reject 400 "Question is required and must be a string"

/-- The body server.js forwards to the retrieval service for /ask, when validation lets
the request through: exactly the object with the single key question. -/
def askForwardedPayload (question : JsValue) : Option (List (String × String)) :=
  match askValidate question with
  | .proceed q => some [("question", q)]
  | .reject _ _ => none

/-- app.post /ask of server.js, as a function of the question field of the request body
and of the outcome of the forwarded call to the retrieval service. -/
def askHandler (question : JsValue) (upstream : Except AxiosError String) : Response :=
  match askValidate question with
  | .reject st msg => { status := st, body := [("error", msg)] }
  | .proceed _ =>
    match upstream with
    | .ok answer => { status := 200, body := [("answer", answer)] }
    | .error e =>
      if isTimeoutErr e then
        { status := 504
          body := [("error", "Request timed out"),
                   ("details", "The question took too long to process. Please try a simpler question or try again.")] }
      else
        { status := jsOrNat e.respStatus 500
          body := [("error", jsOrStr e.respDetail (jsOrStr (some e.message) "Error answering question"))] ++
            (match e.respData with
             | some d => [("details", d)]
             | none => []) }

/-- app.post /upload of server.js: reject when no file was sent, otherwise forward the
file path to the retrieval service and report the outcome.  The success body carries
only the fixed message; no identifier of any kind is created or returned. -/
def uploadHandler (hasFile : Bool) (upstream : Except AxiosError Unit) : Response :=
  if !hasFile then
    { status := 400, body := [("error", "No file uploaded. Use form field name \x27file\x27.")] }
  else
    match upstream with
    | .ok _ =>
      { status := 200, body := [("message", "PDF uploaded & processed successfully!")] }
    | .error e =>
      if isTimeoutErr e then
        { status := 504
          body := [("error", "Request timed out"),
                   ("details", "The PDF processing took too long. Please try again or use a smaller PDF.")] }
      else
        { status := 500
          body := [("error", "PDF processing failed"), ("details", jsOrStr e.respData e.message)] }

/-- The body server.js forwards to the retrieval service on upload: only filePath. -/
def uploadForwardedPayload (filePath : String) : List (String × String) :=
  [("filePath", filePath)]

/-- app.post /summarize of server.js. -/
def summarizeHandler (upstream : Except AxiosError String) : Response :=
  match upstream with
  | .ok summary => { status := 200, body := [("summary", summary)] }
  | .error e =>
    if isTimeoutErr e then
      { status := 504
        body := [("error", "Request timed out"),
                 ("details", "The summarization took too long. Please try again.")] }
    else
      { status := jsOrNat e.respStatus 500
        body := [("error", "Error summarizing PDF"), ("details", jsOrStr e.respData e.message)] }

/-- Modelled from the spec: the retrieval service rag-service/main.py is not under src/;
only fragments of it are quoted in src/unnamed/part_000, src/unnamed/part_001 and
src/SOLUTION_STATE_CORRUPTION.md.  Those fragments show a single module-level
vectorstore shared by every request: process-pdf rebuilds it in place and ask searches
whatever it currently holds.  Its state is that one optional global index, identified
here by the document it was built from. -/
structure RagState where
  vectorstore : Option String
deriving DecidableEq

/-- Modelled from the spec: the process-pdf endpoint of the missing rag-service/main.py,
per the quoted fragments: it replaces the single global vectorstore with the index of
the newly processed document, discarding whatever was there before. -/
def processPdf (doc : String) (_s : RagState) : RagState :=
  { vectorstore := some doc }

/-- Modelled from the spec: the ask endpoint of the missing rag-service/main.py, per the
quoted fragments: it searches the current global vectorstore, whichever document it was
built from, and generates an answer from that document.  gen stands for the generation
model applied to the indexed document and the question; before any upload the global
vectorstore is None and the similarity search raises, surfacing as a 500. -/
def ragCall (gen : String → String → String) (question : String) (s : RagState) :
    Except AxiosError String :=
  match s.vectorstore with
  | some doc => .ok (gen doc question)
  | none =>
    .error { code := none, respStatus := some 500, respData := some "AttributeError",
             respDetail := none, message := "Request failed with status code 500",
             netOrIdempotent := false }

/-- The fields of an /ask request body that matter for session routing: the question
and whatever sessionId the caller may supply.  server.js destructures only question
from req.body; the sessionId field is never read. -/
structure AskRequest where
  question : JsValue
  sessionId : JsValue
deriving DecidableEq

/-- The trimmed question server.js forwards when validation passes. -/
def trimmedQuestion : JsValue → String
  | .str s => (jsTrim s)
  | _ => ""

/-- The end-to-end /ask path: the backend validates the question, forwards only the
trimmed question to the retrieval service (never the sessionId), and wraps the outcome.
The upstream argument of askHandler is consulted only when validation proceeds. -/
def askPipeline (gen : String → String → String) (req : AskRequest) (rag : RagState) :
    Response :=
  askHandler req.question (ragCall gen (trimmedQuestion req.question) rag)

/-- Modelled from the spec: the prompt encoding of the missing rag-service/main.py,
quoted in src/unnamed/part_001 as tokenizer(prompt, truncation=True, max_length=2048):
the token sequence is silently cut to its first 2048 tokens. -/
def encodePrompt (tokens : List Nat) : List Nat :=
  tokens.take 2048

/-- One chat message of the frontend state: role is user or bot. -/
structure ChatMsg where
  role : String
  text : String
deriving DecidableEq

/-- One entry of the pdfs state array of App.js: name, url and chat history. -/
structure PdfEntry where
  name : String
  url : String
  chat : List ChatMsg
deriving DecidableEq

/-- The setPdfs update used by askQuestion, summarizePDF and their error paths in
App.js: prev.map over the list, appending the one new message to the chat of entries
whose name equals the selected pdf and returning every other entry unchanged. -/
def updateChat (selected : String) (m : ChatMsg) (ps : List PdfEntry) : List PdfEntry :=
  ps.map fun p => if p.name = selected then { p with chat := p.chat ++ [m] } else p

/-- The /ask request body App.js sends: only the trimmed question, no session field. -/
def frontendAskPayload (trimmed : String) : List (String × String) :=
  [("question", trimmed)]

/-- The /summarize request body App.js sends: only the selected pdf name. -/
def frontendSummarizePayload (selected : String) : List (String × String) :=
  [("pdf", selected)]

/-- Modelled from the spec: the concurrency control of the missing rag-service/main.py,
quoted in src/unnamed/part_002 as inference_semaphore = asyncio.Semaphore(2), with
generation running under async with inference_semaphore.  asyncio.Semaphore wakes
waiters in first-in-first-out order, so the gate is a FIFO queue in front of at most
two concurrently executing inference calls: executing holds the calls currently inside
the semaphore, waiting the arrival-ordered queue of calls not yet let in. -/
structure GateState where
  executing : List Nat
  waiting : List Nat
deriving DecidableEq

/-- The configured concurrency bound of the inference semaphore: Semaphore(2). -/
def inferenceLimit : Nat := 2

/-- An event of the inference gate: a call arrives and joins the tail of the queue, the
waiter at the head of the queue is started when a slot is free, or an executing call
finishes and releases its slot. -/
inductive GateEvent where
  | arrive (i : Nat)
  | start
  | finish (i : Nat)
deriving DecidableEq

/-- One transition of the inference gate; none marks an event that cannot fire in the
given state (a duplicate arrival, a start with no free slot or no waiter, a finish
of a call that is not executing). -/
def gateStep (s : GateState) : GateEvent → Option GateState
  | .arrive i =>
    if i ∈ s.executing ∨ i ∈ s.waiting then none
    else some { s with waiting := s.waiting ++ [i] }
  | .start =>
    match s.waiting with
    | [] => none
    | i :: rest =>
      if s.executing.length < inferenceLimit then
        some { executing := s.executing ++ [i], waiting := rest }
      else none
  | .finish i =>
    if i ∈ s.executing then
      some { executing := s.executing.erase i, waiting := s.waiting }
    else none

/-- Run a sequence of gate events from a state, failing on an event that cannot fire. -/
def gateRun (s : GateState) : List GateEvent → Option GateState
  | [] => some s
  | e :: es =>
    match gateStep s e with
    | some s2 => gateRun s2 es
    | none => none

/-- The initial gate state: nothing executing, nothing waiting. -/
def gateInit : GateState :=
  { executing := [], waiting := [] }

theorem gateStep_exec_le {s s2 : GateState} {e : GateEvent}
    (hs : s.executing.length ≤ inferenceLimit) (h : gateStep s e = some s2) :
    s2.executing.length ≤ inferenceLimit := by
  cases e with
  | arrive i =>
    simp only [gateStep] at h
    split at h
    · exact absurd h (by simp)
    · cases h
      simpa using hs
  | start =>
    simp only [gateStep] at h
    split at h
    · exact absurd h (by simp)
    next i rest hw =>
      split at h
      next hlt =>
        cases h
        simpa using hlt
      · exact absurd h (by simp)
  | finish i =>
    simp only [gateStep] at h
    split at h
    · cases h
      exact le_trans (List.Sublist.length_le (List.erase_sublist i s.executing)) hs
    · exact absurd h (by simp)

theorem gateRun_exec_le (tr : List GateEvent) :
    ∀ s s2 : GateState, s.executing.length ≤ inferenceLimit →
      gateRun s tr = some s2 → s2.executing.length ≤ inferenceLimit := by
  induction tr with
  | nil =>
    intro s s2 hs h
    simp only [gateRun, Option.some.injEq] at h
    exact h ▸ hs
  | cons e es ih =>
    intro s s2 hs h
    simp only [gateRun] at h
    cases hstep : gateStep s e with
    | none => rw [hstep] at h; exact absurd h (by simp)
    | some s1 =>
      rw [hstep] at h
      exact ih s1 s2 (gateStep_exec_le hs hstep) h

theorem gateStep_shape {s s2 : GateState} {e : GateEvent} (h : gateStep s e = some s2) :
    (∃ i, s2.waiting = s.waiting ++ [i] ∧ s2.executing = s.executing) ∨
    (∃ i, s.waiting = i :: s2.waiting ∧ s2.executing = s.executing ++ [i]) ∨
    (s2.waiting = s.waiting ∧ ∃ i, i ∈ s.executing ∧ s2.executing = s.executing.erase i) := by
  cases e with
  | arrive i =>
    simp only [gateStep] at h
    split at h
    · exact absurd h (by simp)
    · cases h
      exact Or.inl ⟨i, rfl, rfl⟩
  | start =>
    simp only [gateStep] at h
    split at h
    · exact absurd h (by simp)
    next i rest hw =>
      split at h
      · cases h
        exact Or.inr (Or.inl ⟨i, hw, rfl⟩)
      · exact absurd h (by simp)
  | finish i =>
    simp only [gateStep] at h
    split at h
    next hm =>
      cases h
      exact Or.inr (Or.inr ⟨rfl, i, hm, rfl⟩)
    · exact absurd h (by simp)

/-- C4: in every reachable state of the inference inference gate the number of
concurrently executing calls never exceeds the configured bound (Semaphore(2)); every
transition either appends a new arrival at the tail of the waiting queue, moves exactly
the head of the waiting queue into execution, or only releases an executing call — so
queued calls are served in FIFO arrival order, no queued call is bypassed by a
later-arrived one, and every waiter either stays queued or starts executing, never
being dropped. -/
theorem inference_gate_bounded_fifo :
    (∀ tr s, gateRun gateInit tr = some s → s.executing.length ≤ inferenceLimit) ∧
    (∀ s e s2, gateStep s e = some s2 →
      ((∃ i, s2.waiting = s.waiting ++ [i] ∧ s2.executing = s.executing) ∨
       (∃ i, s.waiting = i :: s2.waiting ∧ s2.executing = s.executing ++ [i]) ∨
       (s2.waiting = s.waiting ∧
         ∃ i, i ∈ s.executing ∧ s2.executing = s.executing.erase i))) ∧
    (∀ s e s2, gateStep s e = some s2 →
      ∀ j, j ∈ s.waiting → j ∈ s2.waiting ∨ j ∈ s2.executing) := by
  refine ⟨fun tr s h => gateRun_exec_le tr gateInit s (by simp [gateInit]) h,
    fun s e s2 h => gateStep_shape h, fun s e s2 h j hj => ?_⟩
  rcases gateStep_shape h with ⟨i, hw, _⟩ | ⟨i, hw, he⟩ | ⟨hw, _⟩
  · exact Or.inl (hw ▸ List.mem_append_left _ hj)
  · rw [hw] at hj
    rcases List.mem_cons.mp hj with rfl | hj2
    · exact Or.inr (he ▸ List.mem_append_right _ (List.mem_singleton_self j))
    · exact Or.inl hj2
  · exact Or.inl (hw ▸ hj)

/-- Witness for C4 at a concrete trace: three calls arrive while the bound is two; two
enter execution and the reached state respects the bound. -/
theorem inference_gate_bounded_fifo_witness :
    ({ executing := [0, 1], waiting := [2] } : GateState).executing.length ≤
      inferenceLimit :=
  inference_gate_bounded_fifo.1
    [GateEvent.arrive 0, GateEvent.arrive 1, GateEvent.arrive 2,
     GateEvent.start, GateEvent.start]
    { executing := [0, 1], waiting := [2] } (by decide)

/-- C5: the /ask handler of server.js validates the question before any downstream
call: a missing, non-string, empty-after-trimming or over-2000-character question is
rejected with HTTP 400 and a non-empty message and nothing is forwarded to the
inference service; any other question passes validation and the trimmed question is
forwarded. -/
theorem ask_validation_guards_inference :
    ∀ q : JsValue,
      ((q.isStr = false ∨ ∃ s, q = JsValue.str s ∧ ((jsTrim s) = "" ∨ 2000 < s.length)) →
        (∃ msg, msg ≠ "" ∧ askValidate q = .reject 400 msg) ∧
          askForwardedPayload q = none) ∧
      (∀ s, q = JsValue.str s → (jsTrim s) ≠ "" → s.length ≤ 2000 →
        askValidate q = .proceed (jsTrim s) ∧
          askForwardedPayload q = some [("question", (jsTrim s))]) := by
  intro q
  constructor
  · intro hbad
    cases q with
    | str s =>
      rcases hbad with hns | ⟨s2, hs2, hbad2⟩
      · exact absurd hns (by simp [JsValue.isStr])
      · cases hs2
        rcases hbad2 with htrim | hlong
        · by_cases he : s = ""
          · subst he
            exact ⟨⟨"Question is required and must be a string", by decide,
              by simp [askValidate]⟩, by simp [askForwardedPayload, askValidate]⟩
          · refine ⟨⟨"Question cannot be empty", by decide, ?_⟩, ?_⟩
            · simp [askValidate, he, htrim]
            · simp [askForwardedPayload, askValidate, he, htrim]
        · have hne : s ≠ "" := by
            intro hc
            subst hc
            simp [String.length] at hlong
          by_cases htrim : (jsTrim s) = ""
          · refine ⟨⟨"Question cannot be empty", by decide, ?_⟩, ?_⟩
            · simp [askValidate, hne, htrim]
            · simp [askForwardedPayload, askValidate, hne, htrim]
          · refine ⟨⟨"Question too long (max 2000 characters)", by decide, ?_⟩, ?_⟩
            · simp [askValidate, hne, htrim, hlong]
            · simp [askForwardedPayload, askValidate, hne, htrim, hlong]
    | undefined =>
      exact ⟨⟨"Question is required and must be a string", by decide, by simp [askValidate]⟩,
        by simp [askForwardedPayload, askValidate]⟩
    | null =>
      exact ⟨⟨"Question is required and must be a string", by decide, by simp [askValidate]⟩,
        by simp [askForwardedPayload, askValidate]⟩
    | num n =>
      exact ⟨⟨"Question is required and must be a string", by decide, by simp [askValidate]⟩,
        by simp [askForwardedPayload, askValidate]⟩
    | bool b =>
      exact ⟨⟨"Question is required and must be a string", by decide, by simp [askValidate]⟩,
        by simp [askForwardedPayload, askValidate]⟩
  · intro s hq htrim hlen
    subst hq
    have hne : s ≠ "" := by
      intro hc
      subst hc
      exact htrim rfl
    have hnl : ¬ 2000 < s.length := by omega
    constructor
    · simp [askValidate, hne, htrim, hnl]
    · simp [askForwardedPayload, askValidate, hne, htrim, hnl]

/-- Witness for C5 at concrete questions: the question hi proceeds trimmed and a
whitespace-only question is rejected with a 400 error and is not forwarded. -/
theorem ask_validation_guards_inference_witness :
    (askValidate (JsValue.str "hi") = .proceed "hi" ∧
      askForwardedPayload (JsValue.str "hi") = some [("question", "hi")]) ∧
    ((∃ msg, msg ≠ "" ∧ askValidate (JsValue.str "  ") = .reject 400 msg) ∧
      askForwardedPayload (JsValue.str "  ") = none) :=
  ⟨by
    have h := (ask_validation_guards_inference (JsValue.str "hi")).2 "hi" rfl
      (by decide) (by decide)
    simpa using h,
    (ask_validation_guards_inference (JsValue.str "  ")).1
      (Or.inr ⟨"  ", rfl, Or.inl (by decide)⟩)⟩

theorem isTimeoutErr_true {e : AxiosError}
    (h : e.code = some "ECONNABORTED" ∨ e.respStatus = some 504) :
    isTimeoutErr e = true := by
  rcases h with h | h <;> simp [isTimeoutErr, h]

/-- C8: in each of the three routes of server.js, an upstream failure whose code is
ECONNABORTED or whose response status is 504 is answered with HTTP 504 and a body
whose error field is exactly Request timed out, while a non-timeout upstream failure
of /upload gets the generic 500. -/
theorem timeout_maps_to_504 :
    ∀ e : AxiosError, (e.code = some "ECONNABORTED" ∨ e.respStatus = some 504) →
      (uploadHandler true (.error e) =
        { status := 504
          body := [("error", "Request timed out"),
                   ("details", "The PDF processing took too long. Please try again or use a smaller PDF.")] }) ∧
      (∀ q r, askValidate q = .proceed r →
        askHandler q (.error e) =
          { status := 504
            body := [("error", "Request timed out"),
                     ("details", "The question took too long to process. Please try a simpler question or try again.")] }) ∧
      (summarizeHandler (.error e) =
        { status := 504
          body := [("error", "Request timed out"),
                   ("details", "The summarization took too long. Please try again.")] }) ∧
      (∀ e2 : AxiosError, isTimeoutErr e2 = false →
        (uploadHandler true (.error e2)).status = 500) := by
  intro e he
  have ht := isTimeoutErr_true he
  refine ⟨by simp [uploadHandler, ht], fun q r hq => ?_, by simp [summarizeHandler, ht],
    fun e2 h2 => by simp [uploadHandler, h2]⟩
  simp [askHandler, hq, ht]

/-- Witness for C8 at a concrete timeout error and a concrete valid question. -/
theorem timeout_maps_to_504_witness :
    askHandler (JsValue.str "hello")
        (.error { code := some "ECONNABORTED", respStatus := none, respData := none,
                  respDetail := none, message := "timeout of 45000ms exceeded",
                  netOrIdempotent := true }) =
      { status := 504
        body := [("error", "Request timed out"),
                 ("details", "The question took too long to process. Please try a simpler question or try again.")] } :=
  ((timeout_maps_to_504
      { code := some "ECONNABORTED", respStatus := none, respData := none,
        respDetail := none, message := "timeout of 45000ms exceeded",
        netOrIdempotent := true }
      (Or.inl rfl)).2.1) (JsValue.str "hello") "hello" (by decide)

theorem retryFrom_fst_le (outcome : Nat → Except AxiosError String) :
    ∀ r i, (retryFrom outcome r i).1 ≤ i + r + 1 := by
  intro r
  induction r with
  | zero => intro i; simp [retryFrom]
  | succ r ih =>
    intro i
    simp only [retryFrom]
    cases outcome i with
    | ok s => simp
    | error e =>
      by_cases hc : retryCondition e
      · simp only [hc, if_true]
        have h := ih (i + 1)
        show (retryFrom outcome r (i + 1)).1 ≤ i + (r + 1) + 1
        omega
      · simp [hc]

theorem retryFrom_ok (outcome : Nat → Except AxiosError String) :
    ∀ k r i, k ≤ r →
      (∀ j, j < k → ∃ e, outcome (i + j) = .error e ∧ retryCondition e = true) →
      ∀ s, outcome (i + k) = .ok s →
        retryFrom outcome r i = (i + k + 1, backoffSchedule k i, .ok s) := by
  intro k
  induction k with
  | zero =>
    intro r i _ _ s hs
    rw [Nat.add_zero] at hs
    cases r with
    | zero => simp [retryFrom, backoffSchedule, hs]
    | succ r => simp [retryFrom, backoffSchedule, hs]
  | succ k ih =>
    intro r i hkr hfail s hs
    cases r with
    | zero => omega
    | succ r =>
      obtain ⟨e, he, hc⟩ := hfail 0 (Nat.succ_pos k)
      rw [Nat.add_zero] at he
      have hrec := ih r (i + 1) (by omega)
        (fun j hj => by
          have h2 := hfail (j + 1) (by omega)
          have hx : i + 1 + j = i + (j + 1) := by omega
          rw [hx]
          exact h2)
        s (by
          have hx : i + 1 + k = i + (k + 1) := by omega
          rw [hx]
          exact hs)
      simp only [retryFrom, he, hc, if_true, hrec, backoffSchedule]
      simp only [Prod.mk.injEq]
      exact ⟨by omega, trivial⟩

theorem retryFrom_exhaust (outcome : Nat → Except AxiosError String) :
    ∀ r i e,
      (∀ j, j < r → ∃ e2, outcome (i + j) = .error e2 ∧ retryCondition e2 = true) →
      outcome (i + r) = .error e →
        retryFrom outcome r i = (i + r + 1, backoffSchedule r i, .error e) := by
  intro r
  induction r with
  | zero =>
    intro i e _ he
    rw [Nat.add_zero] at he
    simp [retryFrom, backoffSchedule, he]
  | succ r ih =>
    intro i e hfail he
    obtain ⟨e0, he0, hc0⟩ := hfail 0 (Nat.succ_pos r)
    rw [Nat.add_zero] at he0
    have hrec := ih (i + 1) e
      (fun j hj => by
        have h2 := hfail (j + 1) (by omega)
        have hx : i + 1 + j = i + (j + 1) := by omega
        rw [hx]
        exact h2)
      (by
        have hx : i + 1 + r = i + (r + 1) := by omega
        rw [hx]
        exact he)
    simp only [retryFrom, he0, hc0, if_true, hrec, backoffSchedule]
    simp only [Prod.mk.injEq]
    exact ⟨by omega, trivial⟩

/-- C9: the axios-retry configuration of server.js retries exactly the failures that
are network or idempotent-request errors, ECONNABORTED, or have a response status of
500 or more.  When the first k attempts fail with retryable errors and attempt k
succeeds, the call really is retried k times — one further attempt per failure, each
retry waiting its exponential backoff delay — and the success is returned; when every
attempt fails with retryable errors the call is retried exactly the configured number
of times and no more; the backoff doubles from one retry to the next, the retry
budget defaults to 3 and is configurable through the environment, and a failure
outside the retryable classes is answered after a single attempt, never retried. -/
theorem retry_policy_matches_config :
    (maxRetryAttempts none = 3) ∧
    (∀ n, maxRetryAttempts (some n) = n) ∧
    (∀ e : AxiosError,
      retryCondition e = true ↔
        (e.netOrIdempotent = true ∨ e.code = some "ECONNABORTED" ∨
          ∃ st, e.respStatus = some st ∧ 500 ≤ st)) ∧
    (∀ n, exponentialDelay (n + 1) = 2 * exponentialDelay n) ∧
    (∀ outcome retries, (retryRun retries outcome).1 ≤ retries + 1) ∧
    (∀ (outcome : Nat → Except AxiosError String) retries k, k ≤ retries →
      (∀ j, j < k → ∃ e, outcome j = .error e ∧ retryCondition e = true) →
      ∀ s, outcome k = .ok s →
        retryRun retries outcome = (k + 1, backoffSchedule k 0, .ok s)) ∧
    (∀ (outcome : Nat → Except AxiosError String) retries e,
      (∀ j, j < retries → ∃ e2, outcome j = .error e2 ∧ retryCondition e2 = true) →
      outcome retries = .error e →
        retryRun retries outcome =
          (retries + 1, backoffSchedule retries 0, .error e)) ∧
    (∀ (outcome : Nat → Except AxiosError String) retries e,
      outcome 0 = .error e → retryCondition e = false →
        retryRun retries outcome = (1, [], .error e)) := by
  refine ⟨rfl, fun n => rfl, fun e => ?_, fun n => ?_,
    fun outcome retries => ?_,
    fun outcome retries k hk hfail s hs => ?_,
    fun outcome retries e hfail he => ?_,
    fun outcome retries e h0 hc => ?_⟩
  · constructor
    · intro h
      simp only [retryCondition, Bool.or_eq_true, beq_iff_eq] at h
      rcases h with (h | h) | h
      · exact Or.inl h
      · exact Or.inr (Or.inl h)
      · cases hst : e.respStatus with
        | none => rw [hst] at h; exact absurd h (by simp)
        | some st =>
          rw [hst] at h
          exact Or.inr (Or.inr ⟨st, rfl, by simpa using h⟩)
    · intro h
      rcases h with h | h | ⟨st, hst, hge⟩
      · simp [retryCondition, h]
      · simp [retryCondition, h]
      · simp [retryCondition, hst, hge]
  · simp [exponentialDelay, pow_succ]
    ring
  · have h := retryFrom_fst_le outcome retries 0
    simpa [retryRun] using h
  · have h := retryFrom_ok outcome k retries 0 hk
      (fun j hj => by simpa using hfail j hj) s (by simpa using hs)
    simpa [retryRun] using h
  · have h := retryFrom_exhaust outcome retries 0 e
      (fun j hj => by simpa using hfail j hj) (by simpa using he)
    simpa [retryRun] using h
  · cases retries with
    | zero => simp [retryRun, retryFrom, h0]
    | succ r => simp [retryRun, retryFrom, h0, hc]

/-- Witness for C9: two consecutive 500 failures really are retried, waiting the
doubling backoff of 200ms then 400ms, and the third attempt succeeds, giving three
attempts in total. -/
theorem retry_policy_matches_config_witness :
    retryRun 3 (fun n =>
      if n < 2 then
        .error { code := none, respStatus := some 500, respData := none,
                 respDetail := none, message := "Request failed with status code 500",
                 netOrIdempotent := false }
      else .ok "done") = (3, [200, 400], .ok "done") := by
  have h := retry_policy_matches_config.2.2.2.2.2.1 (fun n =>
      if n < 2 then
        .error { code := none, respStatus := some 500, respData := none,
                 respDetail := none, message := "Request failed with status code 500",
                 netOrIdempotent := false }
      else .ok "done") 3 2 (by omega)
    (fun j hj => ⟨_, if_pos hj, by decide⟩) "done" (by rfl)
  simpa [backoffSchedule, exponentialDelay] using h

/-- C10: every setPdfs update of askQuestion, summarizePDF and their error paths keeps
the length of the pdfs list, leaves every entry whose name differs from the selected
pdf exactly as it was, and changes an entry with the selected name only by appending
the one new message to its chat, keeping its name and url. -/
theorem chat_update_frame :
    ∀ (sel : String) (m : ChatMsg) (ps : List PdfEntry),
      (updateChat sel m ps).length = ps.length ∧
      ∀ (i : Nat) (p : PdfEntry), ps[i]? = some p →
        ((p.name ≠ sel → (updateChat sel m ps)[i]? = some p) ∧
         (p.name = sel →
           (updateChat sel m ps)[i]? = some { p with chat := p.chat ++ [m] })) := by
  intro sel m ps
  refine ⟨by simp [updateChat], fun i p hp => ⟨fun hne => ?_, fun heq => ?_⟩⟩
  · simp [updateChat, List.getElem?_map, hp, hne]
  · simp [updateChat, List.getElem?_map, hp, heq]

/-- Witness for C10 at a concrete state: with entries a and b and selection a, the
entry b is untouched and the entry a only gains the new chat message. -/
theorem chat_update_frame_witness :
    (updateChat "a" { role := "user", text := "hi" }
        [{ name := "a", url := "u", chat := [] },
         { name := "b", url := "v", chat := [] }])[1]? =
      some { name := "b", url := "v", chat := [] } :=
  ((chat_update_frame "a" { role := "user", text := "hi" }
      [{ name := "a", url := "u", chat := [] },
       { name := "b", url := "v", chat := [] }]).2 1
    { name := "b", url := "v", chat := [] } rfl).1 (by decide)

theorem askHandler_bodyKeys (q : JsValue) (upstream : Except AxiosError String) :
    (askHandler q upstream).bodyKeys = ["error"] ∨
    (askHandler q upstream).bodyKeys = ["error", "details"] ∨
    (askHandler q upstream).bodyKeys = ["answer"] := by
  cases hv : askValidate q with
  | reject st msg => simp [askHandler, hv, Response.bodyKeys]
  | proceed r =>
    cases upstream with
    | ok a => simp [askHandler, hv, Response.bodyKeys]
    | error e =>
      by_cases ht : isTimeoutErr e
      · simp [askHandler, hv, ht, Response.bodyKeys]
      · cases hd : e.respData with
        | none => simp [askHandler, hv, ht, hd, Response.bodyKeys]
        | some d => simp [askHandler, hv, ht, hd, Response.bodyKeys]

theorem uploadHandler_bodyKeys (hasFile : Bool) (upstream : Except AxiosError Unit) :
    (uploadHandler hasFile upstream).bodyKeys = ["error"] ∨
    (uploadHandler hasFile upstream).bodyKeys = ["error", "details"] ∨
    (uploadHandler hasFile upstream).bodyKeys = ["message"] := by
  cases hasFile with
  | false => simp [uploadHandler, Response.bodyKeys]
  | true =>
    cases upstream with
    | ok _ => simp [uploadHandler, Response.bodyKeys]
    | error e =>
      by_cases ht : isTimeoutErr e
      · simp [uploadHandler, ht, Response.bodyKeys]
      · simp [uploadHandler, ht, Response.bodyKeys]

theorem summarizeHandler_bodyKeys (upstream : Except AxiosError String) :
    (summarizeHandler upstream).bodyKeys = ["error", "details"] ∨
    (summarizeHandler upstream).bodyKeys = ["summary"] := by
  cases upstream with
  | ok _ => simp [summarizeHandler, Response.bodyKeys]
  | error e =>
    by_cases ht : isTimeoutErr e
    · simp [summarizeHandler, ht, Response.bodyKeys]
    · simp [summarizeHandler, ht, Response.bodyKeys]

/-- C1: the claim fails on the code.  server.js performs no session lookup at all: an
/ask request carrying sessionId nonexistent-id and question x passes validation, only
the question is forwarded to the retrieval service, and the response is a 200 answer
generated from whatever document the single global index currently holds — never a
SessionNotFound error, for every generation model gen and every resident document. -/
theorem ask_unknown_session_gets_stale_answer :
    ∀ (gen : String → String → String) (doc : String),
      askForwardedPayload (JsValue.str "x") = some [("question", "x")] ∧
      askPipeline gen
          { question := JsValue.str "x", sessionId := JsValue.str "nonexistent-id" }
          { vectorstore := some doc } =
        { status := 200, body := [("answer", gen doc "x")] } ∧
      (askPipeline gen
          { question := JsValue.str "x", sessionId := JsValue.str "nonexistent-id" }
          { vectorstore := some doc }).status ≠ 404 := by
  intro gen doc
  have hv : askValidate (JsValue.str "x") = .proceed "x" := by decide
  have h2 : askPipeline gen
      { question := JsValue.str "x", sessionId := JsValue.str "nonexistent-id" }
      { vectorstore := some doc } =
      { status := 200, body := [("answer", gen doc "x")] } := by
    have hx : jsTrim "x" = "x" := by decide
    simp [askPipeline, askHandler, hv, ragCall, trimmedQuestion, hx]
  exact ⟨by decide, h2, by rw [h2]; simp⟩

/-- C2: the claim fails on the code.  There is no session directory: the retrieval
service holds one global vectorstore, so processing document B replaces the index of
document A, and a later question — however clearly it refers to A — is answered from
the index of B, for every generation model gen. -/
theorem second_upload_overwrites_first :
    ∀ gen : String → String → String,
      (processPdf "docA" { vectorstore := none }).vectorstore = some "docA" ∧
      (processPdf "docB" (processPdf "docA" { vectorstore := none })).vectorstore =
        some "docB" ∧
      (processPdf "docB" (processPdf "docA" { vectorstore := none })).vectorstore ≠
        some "docA" ∧
      askPipeline gen
          { question := JsValue.str "about doc A", sessionId := JsValue.undefined }
          (processPdf "docB" (processPdf "docA" { vectorstore := none })) =
        { status := 200, body := [("answer", gen "docB" "about doc A")] } := by
  intro gen
  have hv : askValidate (JsValue.str "about doc A") = .proceed "about doc A" := by
    decide
  have hx : jsTrim "about doc A" = "about doc A" := by decide
  refine ⟨rfl, rfl, by decide, ?_⟩
  simp [askPipeline, askHandler, hv, ragCall, processPdf, trimmedQuestion, hx]

/-- C3: the claim fails on the code.  No /upload response ever contains a sessionId
key, no /ask response ever contains a sessionId or contextTruncated key, the /ask
success body has exactly the answer key, and the request bodies the frontend sends to
/ask and /summarize, as well as the payload the backend forwards on upload, carry no
session identifier either. -/
theorem no_session_id_in_interface :
    (∀ hasFile upstream, "sessionId" ∉ (uploadHandler hasFile upstream).bodyKeys) ∧
    (∀ q upstream, "sessionId" ∉ (askHandler q upstream).bodyKeys) ∧
    (∀ upstream, "sessionId" ∉ (summarizeHandler upstream).bodyKeys) ∧
    (∀ ans : String, (askHandler (JsValue.str "q") (.ok ans)).bodyKeys = ["answer"]) ∧
    (∀ t, (frontendAskPayload t).map Prod.fst = ["question"]) ∧
    (∀ sel, (frontendSummarizePayload sel).map Prod.fst = ["pdf"]) ∧
    (∀ fp, (uploadForwardedPayload fp).map Prod.fst = ["filePath"]) := by
  refine ⟨fun hasFile upstream => ?_, fun q upstream => ?_, fun upstream => ?_,
    fun ans => ?_, fun t => by simp [frontendAskPayload],
    fun sel => by simp [frontendSummarizePayload],
    fun fp => by simp [uploadForwardedPayload]⟩
  · rcases uploadHandler_bodyKeys hasFile upstream with h | h | h <;> rw [h] <;> decide
  · rcases askHandler_bodyKeys q upstream with h | h | h <;> rw [h] <;> decide
  · rcases summarizeHandler_bodyKeys upstream with h | h <;> rw [h] <;> decide
  · have hv : askValidate (JsValue.str "q") = .proceed "q" := by decide
    simp [askHandler, hv, Response.bodyKeys]

/-- C6: the claim fails on the code.  The prompt encoding of the retrieval service
silently cuts the token sequence to 2048 tokens — demonstrated at an over-long
concrete prompt — and no /ask response ever carries a contextTruncated key, so
truncation is invisible to the caller. -/
theorem truncation_is_silent :
    (∀ ts : List Nat, (encodePrompt ts).length = min 2048 ts.length) ∧
    encodePrompt (List.replicate 4096 0) ≠ List.replicate 4096 0 ∧
    (∀ q upstream, "contextTruncated" ∉ (askHandler q upstream).bodyKeys) := by
  refine ⟨fun ts => by simp [encodePrompt], fun h => ?_, fun q upstream => ?_⟩
  · have hl := congrArg List.length h
    simp only [encodePrompt, List.length_take, List.length_replicate] at hl
    omega
  · rcases askHandler_bodyKeys q upstream with h | h | h <;> rw [h] <;> decide

/-- C7: the claim fails on the code.  /upload allocates no identifier at all: the
payload forwarded to the retrieval service holds only the file path, the success body
is exactly the fixed message, and no branch of the handler ever returns a sessionId
key. -/
theorem upload_allocates_no_session_id :
    (∀ fp, uploadForwardedPayload fp = [("filePath", fp)]) ∧
    uploadHandler true (.ok ()) =
      { status := 200
        body := [("message", "PDF uploaded & processed successfully!")] } ∧
    (∀ hasFile upstream, "sessionId" ∉ (uploadHandler hasFile upstream).bodyKeys) := by
  refine ⟨fun fp => rfl, by decide, fun hasFile upstream => ?_⟩
  rcases uploadHandler_bodyKeys hasFile upstream with h | h | h <;> rw [h] <;> decide
